import Mathlib

/-!
Verification of the SSO token-issuance core (Token Service, OAuth2 Service,
Rate Limiter) against its specification.

The Rust core under `src/services` is shallowly embedded below.  External
collaborators (the Redis key-value store, the `jsonwebtoken` codec, the
argon2 password-hash primitive, the relational client store) are not part of
the repository source; following the specification they are modelled at
their interface boundary, each such definition carrying a doc comment that
starts with `Modelled from the spec:`.
-/

namespace SSO

/-! ## Data model: JwtType and Claims (src/services/tokens/jwt.rs) -/

/-- Token kind discriminator, embedding `enum JwtType` in jwt.rs. -/
inductive JwtType where
  | authorizationCode
  | accessToken
  | refreshToken
  | activationCode
deriving DecidableEq, Repr

/-- The signed payload of a token, embedding `struct Claims` in jwt.rs.
UUIDs are opaque identifiers, modelled as `Nat`; timestamps are Unix
seconds, modelled as `Nat`. -/
structure Claims where
  jwt_type : JwtType
  aud : String
  exp : Nat
  iat : Nat
  iss : String
  sub : Nat
deriving DecidableEq, Repr

/-- The fixed issuer constant `"agus.dev sso"` used by `Claims::new` and
`JwtSigner::verify`. -/
def issuerConst : String := "agus.dev sso"

/-- Embeds the Rust cast `as usize` applied to an `i64` number of seconds:
two's-complement reinterpretation modulo 2^64. -/
def usizeOfInt (i : Int) : Nat := (i % (2 ^ 64 : Int)).toNat

/-- Embeds `Claims::new(jwt_type, aud, sub, exp)` in jwt.rs: `iat` is the
current clock reading (`now`, a parameter of the model), and
`exp = iat + exp.num_seconds() as usize`. -/
def Claims.new (jwt_type : JwtType) (aud : String) (sub : Nat)
    (expirySecs : Int) (now : Nat) : Claims :=
  { jwt_type := jwt_type
    aud := aud
    exp := now + usizeOfInt expirySecs
    iat := now
    iss := issuerConst
    sub := sub }

/-! ## The token wire format and the codec (jwt.rs + the jsonwebtoken library)

The `jsonwebtoken` library is an external collaborator; per the spec the
wire format is "a compact three-part signed structure (header.payload.signature)
carrying the Claims fields as the payload; algorithm and secret fixed per
deployment", verification "validates signature, issuer match, and expiry
(`now < expires_at`)", and `ExpiredToken` is reserved for tokens that are
"structurally valid but past expiry". -/

/-- Modelled from the spec: the signed-token wire format produced by the
external `jsonwebtoken` codec.  A string is either a well-formed serialized
token — its claims together with the secret whose HMAC signature it carries
(the MAC is ideal: a signature verifies under exactly the secret that
produced it, the algorithm being fixed per deployment) — or unparseable. -/
inductive TokenStr where
  | signed (claims : Claims) (secret : List Nat)
  | malformed (s : String)
deriving DecidableEq, Repr

/-- The classification of codec failures surfaced by the external library,
embeddeding the `jsonwebtoken::errors::ErrorKind` cases that the `From`
impl in jwt.rs (lines 100–114) distinguishes; `other` stands for every
remaining kind, which that impl sends to its catch-all arm. -/
inductive ErrorKind where
  | invalidToken
  | invalidSignature
  | expiredSignature
  | invalidIssuer
  | invalidAudience
  | invalidSubject
  | immatureSignature
  | other
deriving DecidableEq, Repr

/-- Embeds `enum JwtVerifyError` in jwt.rs.  The payload of the
`InternalError` variant is reduced to the codec error kind that caused it. -/
inductive JwtVerifyError where
  | invalidToken
  | expiredToken
  | internalError (k : ErrorKind)
deriving DecidableEq, Repr

/-- Embeds `JwtSigner::sign` (jwt.rs lines 57–61): serializes and signs the
claims with the service secret.  Per the spec it "fails only on
serialization error"; serialization of a well-typed `Claims` value cannot
fail, so the model is total. -/
def JwtSigner.sign (secret : List Nat) (claims : Claims) : TokenStr :=
  .signed claims secret

/-- Modelled from the spec: the external `jsonwebtoken::decode` call made by
`JwtSigner::verify` with `validate_exp = true`, `validate_aud = false` and
issuer pinned to `issuerConst`.  Structural checks (parse, signature,
issuer) precede the expiry check, so that `ExpiredSignature` is produced
only for tokens that are "structurally valid but past expiry"; a token is
valid only while `now < expires_at`. -/
def decodeJwt (secret : List Nat) (now : Nat) :
    TokenStr → Except ErrorKind Claims
  | .malformed _ => .error .invalidToken
  | .signed claims s =>
    if s ≠ secret then .error .invalidSignature
    else if claims.iss ≠ issuerConst then .error .invalidIssuer
    else if claims.exp ≤ now then .error .expiredSignature
    else .ok claims

/-- Embeds `impl From<ManualErrorHandling<jsonwebtoken::errors::Error>> for
JwtVerifyError` (jwt.rs lines 100–114): the arm-by-arm mapping from codec
error kinds to the service's verification error. -/
def JwtVerifyError.ofKind : ErrorKind → JwtVerifyError
  | .invalidToken => .invalidToken
  | .invalidSignature => .invalidToken
  | .expiredSignature => .expiredToken
  | .invalidIssuer => .invalidToken
  | .invalidAudience => .invalidToken
  | .invalidSubject => .invalidToken
  | .immatureSignature => .invalidToken
  | k => .internalError k

/-- Embeds `JwtSigner::verify` (jwt.rs lines 63–73): decode with the pinned
validation, mapping the library error through `JwtVerifyError.ofKind`. -/
def JwtSigner.verify (secret : List Nat) (now : Nat) (token : TokenStr) :
    Except JwtVerifyError Claims :=
  (decodeJwt secret now token).mapError JwtVerifyError.ofKind

/-! ## Token Service (src/services/tokens.rs) -/

/-- Embeds `TokenService::verify_any` (tokens.rs lines 26–28). -/
def TokenService.verifyAny (secret : List Nat) (now : Nat)
    (token : TokenStr) : Except JwtVerifyError Claims :=
  JwtSigner.verify secret now token

/-- Embeds `TokenService::verify_access_token` (tokens.rs lines 30–37):
`verify_any` with the error propagated by `?`, then the kind check. -/
def TokenService.verifyAccessToken (secret : List Nat) (now : Nat)
    (token : TokenStr) : Except JwtVerifyError Claims :=
  match TokenService.verifyAny secret now token with
  | .error e => .error e
  | .ok claims =>
    if claims.jwt_type ≠ JwtType.accessToken then
      .error .invalidToken
    else
      .ok claims

/-- Embeds `TokenService::verify_activation_code` (tokens.rs lines 39–46):
`verify_any` with the error propagated by `?`, then the kind check. -/
def TokenService.verifyActivationCode (secret : List Nat) (now : Nat)
    (token : TokenStr) : Except JwtVerifyError Claims :=
  match TokenService.verifyAny secret now token with
  | .error e => .error e
  | .ok claims =>
    if claims.jwt_type ≠ JwtType.activationCode then
      .error .invalidToken
    else
      .ok claims

/-- Embeds `TokenService::create_authorization_code` (tokens.rs lines 48–60). -/
def TokenService.createAuthorizationCode (secret : List Nat)
    (client_id : String) (user_id : Nat) (expirySecs : Int) (now : Nat) :
    TokenStr :=
  JwtSigner.sign secret (Claims.new .authorizationCode client_id user_id expirySecs now)

/-- Embeds `TokenService::create_access_token` (tokens.rs lines 62–74). -/
def TokenService.createAccessToken (secret : List Nat)
    (client_id : String) (user_id : Nat) (expirySecs : Int) (now : Nat) :
    TokenStr :=
  JwtSigner.sign secret (Claims.new .accessToken client_id user_id expirySecs now)

/-- Embeds `TokenService::create_activation_code` (tokens.rs lines 76–83):
audience is the fixed service name and expiry is 15 minutes (900 seconds). -/
def TokenService.createActivationCode (secret : List Nat) (user_id : Nat)
    (now : Nat) : TokenStr :=
  JwtSigner.sign secret (Claims.new .activationCode "agus.dev sso" user_id 900 now)

/-! ## The external key-value store

Redis is an external collaborator; per the spec it is "a shared,
network-accessible atomic key-value store supporting conditional 'set if
absent' with TTL". -/

/-- Modelled from the spec: one record of the external KV store — a value
together with the absolute time at which its TTL elapses. -/
structure KvEntry (ω : Type) where
  value : ω
  expiresAt : Nat
deriving DecidableEq, Repr

/-- Modelled from the spec: the external KV store, an association list from
keys to records (the most recent write for a key shadows older ones). -/
abbrev Kvs (κ ω : Type) := List (κ × KvEntry ω)

/-- The live value at a key: the most recent record, provided its TTL has
not elapsed (a record is live while `now < expiresAt`). -/
def Kvs.getLive [DecidableEq κ] (kvs : Kvs κ ω) (now : Nat) (k : κ) :
    Option ω :=
  match kvs.find? (fun p => decide (p.1 = k)) with
  | some p => if now < p.2.expiresAt then some p.2.value else none
  | none => none

/-- Modelled from the spec: the atomic Redis `SET key value NX EX ttl`
command issued through `set_options(..., conditional_set(NX),
with_expiration(EX ttl))`.  If the key holds no live record the write
happens and the reply is `OK`; otherwise nothing changes and the reply is
nil (`none`). -/
def Kvs.setNxEx [DecidableEq κ] (kvs : Kvs κ ω) (now : Nat) (k : κ) (v : ω)
    (ttl : Nat) : Option String × Kvs κ ω :=
  match kvs.getLive now k with
  | some _ => (none, kvs)
  | none => (some "OK", (k, ⟨v, now + ttl⟩) :: kvs)

/-- The key under which a code's single-use marker is stored:
`format!("authorization_token:{}", token)` in tokens.rs line 90. -/
def authTokenKey (token : String) : String := "authorization_token:" ++ token

/-- Embeds `TokenService::mark_authorization_code_as_used` (tokens.rs lines
85–103): a single `SET NX EX` at `authTokenKey token` with the code itself
as value and TTL `60 * 5` seconds; the result is `result.is_some()`, i.e.
whether this call created the record. -/
def TokenService.markAuthorizationCodeAsUsed (kvs : Kvs String String)
    (now : Nat) (token : String) : Bool × Kvs String String :=
  let r := kvs.setNxEx now (authTokenKey token) token (60 * 5)
  (r.1.isSome, r.2)

/-! ## Rate Limiter (src/services/rate_limit.rs) -/

/-- Embeds `RateLimitService::check_rate_limit` (rate_limit.rs lines
17–36): a single `SET NX EX` at `key` with the key itself as value and TTL
`ttl` seconds; returns whether this call created the record. -/
def RateLimitService.checkRateLimit (kvs : Kvs String String) (now : Nat)
    (key : String) (ttl : Nat) : Bool × Kvs String String :=
  let r := kvs.setNxEx now key key ttl
  (r.1.isSome, r.2)

/-! ## Clients (src/services/clients.rs) -/

/-- Embeds `struct Client` in clients.rs: the stored (hashed) secret and
the registered redirect URI. -/
structure Client where
  client_secret : String
  redirect_uri : String
deriving DecidableEq, Repr

/-- Modelled from the spec: the opaque password-hash primitive ("verify
secret against hash" capability) behind `Client::is_secret_match`.  Hashing
is ideal: the stored hash matches exactly the secret it was derived from. -/
def hashOf (secret : String) : String := "$argon2$" ++ secret

/-- Embeds `Client::is_secret_match` (clients.rs lines 41–55) over the
modelled hash primitive: true exactly when the submitted secret hashes to
the stored hash. -/
def Client.isSecretMatch (client : Client) (secret : String) : Bool :=
  client.client_secret = hashOf secret

/-- Modelled from the spec: the relational client store behind
`ClientService::get_by_client_id`, reduced to its narrow lookup interface —
an association of client ids to registered clients. -/
abbrev ClientDb := List (String × Client)

/-- Embeds `ClientService::get_by_client_id` (clients.rs lines 18–23). -/
def ClientService.getByClientId (db : ClientDb) (client_id : String) :
    Option Client :=
  (db.find? (fun p => decide (p.1 = client_id))).map (·.2)

/-! ## OAuth2 Service (src/services/oauth2.rs)

The authorization code travels as a string on the wire; here it is a
`TokenStr` (the model of token strings), and the single-use marker store is
keyed by the code itself — faithful to the `"authorization_token:" + code`
key of tokens.rs because that fixed-prefix construction is injective
(proved below at string level). -/

/-- Embeds `struct TokenParams` in oauth2.rs. -/
structure TokenParams where
  grant_type : String
  code : TokenStr
  redirect_uri : String
  client_id : String
  client_secret : String
deriving DecidableEq, Repr

/-- Embeds `struct AccessToken` in oauth2.rs: the success response body. -/
structure AccessToken where
  access_token : TokenStr
  token_type : String
  expires_in : Nat
  refresh_token : Option String
  scope : Option String
deriving DecidableEq, Repr

/-- Embeds `enum AccessTokenError` in oauth2.rs. -/
inductive AccessTokenError where
  | unsupportedGrantType
  | clientAuthenticationFailed
  | tokenAudienceMismatch
  | redirectUriMismatch
  | authorizationCodeUsed
  | tokenTypeMismatch
  | invalidToken (e : JwtVerifyError)
  | internalError
deriving DecidableEq, Repr

/-- The single-use consumption step as invoked from the OAuth2 flow: the
`SET NX EX` of `mark_authorization_code_as_used` on the marker store, which
in this model is keyed directly by the code. -/
def markUsedT (kvs : Kvs TokenStr TokenStr) (now : Nat) (token : TokenStr) :
    Bool × Kvs TokenStr TokenStr :=
  let r := kvs.setNxEx now token token (60 * 5)
  (r.1.isSome, r.2)

/-- Embeds `Oauth2Service::authorization_code_flow` (oauth2.rs lines
78–118): kind, audience and redirect-URI checks, then atomic consumption,
then minting of the access token (audience = client id, subject = the
code's subject, expiry 60 minutes). -/
def Oauth2Service.authorizationCodeFlow (secret : List Nat)
    (kvs : Kvs TokenStr TokenStr) (now : Nat) (claims : Claims)
    (client : Client) (p : TokenParams) :
    Except AccessTokenError AccessToken × Kvs TokenStr TokenStr :=
  if claims.jwt_type ≠ JwtType.authorizationCode then
    (.error .tokenTypeMismatch, kvs)
  else if claims.aud ≠ p.client_id then
    (.error .tokenAudienceMismatch, kvs)
  else if p.redirect_uri ≠ client.redirect_uri then
    (.error .redirectUriMismatch, kvs)
  else
    let r := markUsedT kvs now p.code
    if !r.1 then
      (.error .authorizationCodeUsed, r.2)
    else
      let token := TokenService.createAccessToken secret p.client_id claims.sub 3600 now
      (.ok { access_token := token
             token_type := "Bearer"
             expires_in := 3600
             refresh_token := none
             scope := none }, r.2)

/-- Embeds `Oauth2Service::access_token` (oauth2.rs lines 53–76): client
lookup, secret check, `verify_any`, then dispatch on the grant type into
the authorization-code flow. -/
def Oauth2Service.accessToken (db : ClientDb) (secret : List Nat)
    (kvs : Kvs TokenStr TokenStr) (now : Nat) (p : TokenParams) :
    Except AccessTokenError AccessToken × Kvs TokenStr TokenStr :=
  match ClientService.getByClientId db p.client_id with
  | none => (.error .clientAuthenticationFailed, kvs)
  | some client =>
    if !(client.isSecretMatch p.client_secret) then
      (.error .clientAuthenticationFailed, kvs)
    else
      match TokenService.verifyAny secret now p.code with
      | .error e => (.error (.invalidToken e), kvs)
      | .ok claims =>
        if p.grant_type = "authorization_code" then
          Oauth2Service.authorizationCodeFlow secret kvs now claims client p
        else
          (.error .unsupportedGrantType, kvs)

/-- Embeds `Oauth2Service::create_authorization_code` (oauth2.rs lines
43–51): an authorization code with a 5-minute (300-second) expiry. -/
def Oauth2Service.createAuthorizationCode (secret : List Nat)
    (client_id : String) (user_id : Nat) (now : Nat) : TokenStr :=
  TokenService.createAuthorizationCode secret client_id user_id 300 now

/-- The nine-step token-endpoint procedure exactly as the specification
enumerates it (§4.4): (1) client lookup, (2) secret check, (3)
`verify_any`, (4) grant type, (5) token kind, (6) audience, (7) redirect
URI, (8) atomic consumption, (9) minting — in this order, short-circuiting
on the first failure with the named error.  Written from the spec's words,
to be compared with `Oauth2Service.accessToken`, which is written from the
source. -/
def accessTokenSpecSteps (db : ClientDb) (secret : List Nat)
    (kvs : Kvs TokenStr TokenStr) (now : Nat) (p : TokenParams) :
    Except AccessTokenError AccessToken × Kvs TokenStr TokenStr :=
  match ClientService.getByClientId db p.client_id with
  | none => (.error .clientAuthenticationFailed, kvs)
  | some client =>
    if client.isSecretMatch p.client_secret = false then
      (.error .clientAuthenticationFailed, kvs)
    else
      match TokenService.verifyAny secret now p.code with
      | .error e => (.error (.invalidToken e), kvs)
      | .ok claims =>
        if p.grant_type ≠ "authorization_code" then
          (.error .unsupportedGrantType, kvs)
        else if claims.jwt_type ≠ JwtType.authorizationCode then
          (.error .tokenTypeMismatch, kvs)
        else if claims.aud ≠ p.client_id then
          (.error .tokenAudienceMismatch, kvs)
        else if p.redirect_uri ≠ client.redirect_uri then
          (.error .redirectUriMismatch, kvs)
        else
          match markUsedT kvs now p.code with
          | (false, kvs') => (.error .authorizationCodeUsed, kvs')
          | (true, kvs') =>
            (.ok { access_token :=
                     JwtSigner.sign secret
                       (Claims.new .accessToken p.client_id claims.sub 3600 now)
                   token_type := "Bearer"
                   expires_in := 3600
                   refresh_token := none
                   scope := none }, kvs')

/-! ## Theorems: the claims codec (C3–C6) -/

/-- Helper: verifying a token freshly signed with the service secret
succeeds when the issuer is the fixed constant and the expiry lies in the
future. -/
theorem verify_sign_eq_ok (secret : List Nat) (claims : Claims) (now : Nat)
    (hiss : claims.iss = issuerConst) (hexp : now < claims.exp) :
    JwtSigner.verify secret now (JwtSigner.sign secret claims) =
      Except.ok claims := by
  simp [JwtSigner.verify, JwtSigner.sign, decodeJwt, Except.mapError, hiss,
    Nat.not_le.mpr hexp]

/-- C3: for every Claims value with the fixed issuer constant and an expiry
in the future, verifying the string produced by sign returns claims equal
to the original on every field, for every token kind. -/
theorem C3_round_trip (secret : List Nat) (claims : Claims) (now : Nat)
    (hiss : claims.iss = issuerConst) (hexp : now < claims.exp) :
    JwtSigner.verify secret now (JwtSigner.sign secret claims) =
      Except.ok claims :=
  verify_sign_eq_ok secret claims now hiss hexp

/-- Witness for C3 at a concrete claims value. -/
theorem C3_round_trip_witness :
    JwtSigner.verify [1, 2] 5
        (JwtSigner.sign [1, 2]
          ⟨.authorizationCode, "client-1", 100, 0, issuerConst, 7⟩) =
      Except.ok ⟨.authorizationCode, "client-1", 100, 0, issuerConst, 7⟩ :=
  C3_round_trip [1, 2] ⟨.authorizationCode, "client-1", 100, 0, issuerConst, 7⟩ 5
    rfl (by decide)

/-- C4: a structurally valid, correctly signed token whose expiry has
passed (`now ≥ expires_at`) fails with `ExpiredToken`; a structurally
corrupted token fails with `InvalidToken`; the two outcomes are distinct. -/
theorem C4_expired_vs_invalid (secret : List Nat) (claims : Claims) (now : Nat)
    (hiss : claims.iss = issuerConst) (hexp : claims.exp ≤ now) :
    JwtSigner.verify secret now (JwtSigner.sign secret claims) =
        Except.error JwtVerifyError.expiredToken
      ∧ (∀ s, JwtSigner.verify secret now (TokenStr.malformed s) =
          Except.error JwtVerifyError.invalidToken)
      ∧ JwtVerifyError.expiredToken ≠ JwtVerifyError.invalidToken := by
  refine ⟨?_, ?_, by decide⟩
  · simp [JwtSigner.verify, JwtSigner.sign, decodeJwt, hiss, hexp,
      JwtVerifyError.ofKind, Except.mapError]
  · intro s
    simp [JwtSigner.verify, decodeJwt, JwtVerifyError.ofKind, Except.mapError]

/-- Witness for C4 at a concrete expired token. -/
theorem C4_expired_vs_invalid_witness :
    JwtSigner.verify [3] 200
        (JwtSigner.sign [3] ⟨.accessToken, "client-1", 100, 0, issuerConst, 7⟩) =
      Except.error JwtVerifyError.expiredToken :=
  (C4_expired_vs_invalid [3] ⟨.accessToken, "client-1", 100, 0, issuerConst, 7⟩ 200
    rfl (by decide)).1

/-- C5: every structural verification failure — malformed token, signature
mismatch, wrong issuer — yields `InvalidToken`; no failed verification
yields `InternalError`; and `ExpiredToken` arises only for tokens that are
correctly signed and carry the right issuer. -/
theorem C5_structural_failures (secret : List Nat) (now : Nat) :
    (∀ token e, JwtSigner.verify secret now token = Except.error e →
        e = JwtVerifyError.invalidToken ∨ e = JwtVerifyError.expiredToken)
      ∧ (∀ token, JwtSigner.verify secret now token =
            Except.error JwtVerifyError.expiredToken →
          ∃ claims, token = TokenStr.signed claims secret
            ∧ claims.iss = issuerConst ∧ claims.exp ≤ now)
      ∧ (∀ s, JwtSigner.verify secret now (TokenStr.malformed s) =
          Except.error JwtVerifyError.invalidToken)
      ∧ (∀ claims s, s ≠ secret →
          JwtSigner.verify secret now (TokenStr.signed claims s) =
            Except.error JwtVerifyError.invalidToken)
      ∧ (∀ claims, claims.iss ≠ issuerConst →
          JwtSigner.verify secret now (TokenStr.signed claims secret) =
            Except.error JwtVerifyError.invalidToken) := by
  refine ⟨?_, ?_, ?_, ?_, ?_⟩
  · intro token e h
    cases token with
    | malformed s =>
      simp [JwtSigner.verify, decodeJwt, JwtVerifyError.ofKind, Except.mapError] at h
      exact Or.inl h.symm
    | signed claims s =>
      by_cases hs : s = secret
      · subst hs
        by_cases hi : claims.iss = issuerConst
        · by_cases he : claims.exp ≤ now
          · simp [JwtSigner.verify, decodeJwt, hi, he, JwtVerifyError.ofKind, Except.mapError] at h
            exact Or.inr h.symm
          · simp [JwtSigner.verify, decodeJwt, hi, he, JwtVerifyError.ofKind, Except.mapError] at h
        · simp [JwtSigner.verify, decodeJwt, hi, JwtVerifyError.ofKind, Except.mapError] at h
          exact Or.inl h.symm
      · simp [JwtSigner.verify, decodeJwt, hs, JwtVerifyError.ofKind, Except.mapError] at h
        exact Or.inl h.symm
  · intro token h
    cases token with
    | malformed s =>
      simp [JwtSigner.verify, decodeJwt, JwtVerifyError.ofKind, Except.mapError] at h
    | signed claims s =>
      by_cases hs : s = secret
      · subst hs
        by_cases hi : claims.iss = issuerConst
        · by_cases he : claims.exp ≤ now
          · exact ⟨claims, rfl, hi, he⟩
          · simp [JwtSigner.verify, decodeJwt, hi, he, JwtVerifyError.ofKind, Except.mapError] at h
        · simp [JwtSigner.verify, decodeJwt, hi, JwtVerifyError.ofKind, Except.mapError] at h
      · simp [JwtSigner.verify, decodeJwt, hs, JwtVerifyError.ofKind, Except.mapError] at h
  · intro s
    simp [JwtSigner.verify, decodeJwt, JwtVerifyError.ofKind, Except.mapError]
  · intro claims s hs
    simp [JwtSigner.verify, decodeJwt, hs, JwtVerifyError.ofKind, Except.mapError]
  · intro claims hi
    simp [JwtSigner.verify, decodeJwt, hi, JwtVerifyError.ofKind, Except.mapError]

/-- Witness for C5: a wrong-secret token and a wrong-issuer token each fail
with `InvalidToken` at concrete inputs. -/
theorem C5_structural_failures_witness :
    JwtSigner.verify [1] 0
        (TokenStr.signed ⟨.accessToken, "c", 100, 0, issuerConst, 7⟩ [2]) =
        Except.error JwtVerifyError.invalidToken
      ∧ JwtSigner.verify [1] 0
          (TokenStr.signed ⟨.accessToken, "c", 100, 0, "evil", 7⟩ [1]) =
          Except.error JwtVerifyError.invalidToken :=
  ⟨(C5_structural_failures [1] 0).2.2.2.1
      ⟨.accessToken, "c", 100, 0, issuerConst, 7⟩ [2] (by decide),
    (C5_structural_failures [1] 0).2.2.2.2
      ⟨.accessToken, "c", 100, 0, "evil", 7⟩ (by decide)⟩

/-- C6: a token whose signature, issuer and expiry are valid but whose kind
is not the checked one fails kind-checked verification with `InvalidToken`,
for both kind-checked verifiers. -/
theorem C6_kind_checked (secret : List Nat) (claims : Claims) (now : Nat)
    (hiss : claims.iss = issuerConst) (hexp : now < claims.exp) :
    (claims.jwt_type ≠ JwtType.accessToken →
        TokenService.verifyAccessToken secret now (JwtSigner.sign secret claims) =
          Except.error JwtVerifyError.invalidToken)
      ∧ (claims.jwt_type ≠ JwtType.activationCode →
        TokenService.verifyActivationCode secret now (JwtSigner.sign secret claims) =
          Except.error JwtVerifyError.invalidToken) := by
  have hv := verify_sign_eq_ok secret claims now hiss hexp
  constructor
  · intro hk
    simp [TokenService.verifyAccessToken, TokenService.verifyAny, hv, hk]
  · intro hk
    simp [TokenService.verifyActivationCode, TokenService.verifyAny, hv, hk]

/-- Witness for C6: an authorization code fails both kind-checked
verifiers at a concrete input. -/
theorem C6_kind_checked_witness :
    TokenService.verifyAccessToken [1] 5
        (JwtSigner.sign [1] ⟨.authorizationCode, "c", 100, 0, issuerConst, 7⟩) =
        Except.error JwtVerifyError.invalidToken
      ∧ TokenService.verifyActivationCode [1] 5
          (JwtSigner.sign [1] ⟨.authorizationCode, "c", 100, 0, issuerConst, 7⟩) =
          Except.error JwtVerifyError.invalidToken :=
  ⟨(C6_kind_checked [1] ⟨.authorizationCode, "c", 100, 0, issuerConst, 7⟩ 5
      rfl (by decide)).1 (by decide),
    (C6_kind_checked [1] ⟨.authorizationCode, "c", 100, 0, issuerConst, 7⟩ 5
      rfl (by decide)).2 (by decide)⟩

/-! ## Theorems: the KV single-use and rate-limit primitives (C2, C8, C10) -/

/-- Helper: reading a key right after a record for it was prepended. -/
theorem getLive_cons_self [DecidableEq κ] (kvs : Kvs κ ω) (now : Nat)
    (k : κ) (e : KvEntry ω) :
    Kvs.getLive ((k, e) :: kvs) now k =
      if now < e.expiresAt then some e.value else none := by
  simp [Kvs.getLive, List.find?_cons_of_pos]

/-- Helper: prepending a record for one key does not affect reads of any
other key. -/
theorem getLive_cons_ne [DecidableEq κ] (kvs : Kvs κ ω) (now : Nat)
    {k k' : κ} (e : KvEntry ω) (hne : k ≠ k') :
    Kvs.getLive ((k, e) :: kvs) now k' = Kvs.getLive kvs now k' := by
  simp [Kvs.getLive, List.find?_cons_of_neg, hne]

/-- Helper: the boolean returned by the single-use marker is exactly
"no live record existed at the marker key". -/
theorem markUsed_fst (kvs : Kvs String String) (now : Nat) (code : String) :
    (TokenService.markAuthorizationCodeAsUsed kvs now code).1 =
      (kvs.getLive now (authTokenKey code)).isNone := by
  unfold TokenService.markAuthorizationCodeAsUsed Kvs.setNxEx
  cases h : kvs.getLive now (authTokenKey code) <;> simp [h]

/-- Helper: the store returned by the single-use marker — unchanged when a
live record existed, the fresh record prepended otherwise. -/
theorem markUsed_snd (kvs : Kvs String String) (now : Nat) (code : String) :
    (TokenService.markAuthorizationCodeAsUsed kvs now code).2 =
      match kvs.getLive now (authTokenKey code) with
      | some _ => kvs
      | none => (authTokenKey code, ⟨code, now + 60 * 5⟩) :: kvs := by
  unfold TokenService.markAuthorizationCodeAsUsed Kvs.setNxEx
  cases h : kvs.getLive now (authTokenKey code) <;> simp [h]

/-- C2: `mark_authorization_code_as_used` performs a single set-if-absent
at `"authorization_token:" + code` with the code as value and a 5-minute
(300-second) TTL, returning `true` exactly when this call created the
record: the first call for a code returns `true` and writes the record,
and every later call while the record is live returns `false` and leaves
the store unchanged. -/
theorem C2_mark_code_used (kvs : Kvs String String) (now : Nat)
    (code : String) :
    ((TokenService.markAuthorizationCodeAsUsed kvs now code).1 = true ↔
        kvs.getLive now (authTokenKey code) = none)
      ∧ (kvs.getLive now (authTokenKey code) = none →
          (TokenService.markAuthorizationCodeAsUsed kvs now code).2 =
            (authTokenKey code, ⟨code, now + 60 * 5⟩) :: kvs)
      ∧ (∀ v, kvs.getLive now (authTokenKey code) = some v →
          (TokenService.markAuthorizationCodeAsUsed kvs now code).2 = kvs)
      ∧ (kvs.getLive now (authTokenKey code) = none → ∀ now',
          now' < now + 60 * 5 →
            (TokenService.markAuthorizationCodeAsUsed
              (TokenService.markAuthorizationCodeAsUsed kvs now code).2
              now' code).1 = false) := by
  refine ⟨?_, ?_, ?_, ?_⟩
  · rw [markUsed_fst]
    cases h : kvs.getLive now (authTokenKey code) <;> simp [h]
  · intro h
    rw [markUsed_snd, h]
  · intro v h
    rw [markUsed_snd, h]
  · intro h now' hlt
    rw [markUsed_fst, markUsed_snd, h, getLive_cons_self]
    simp [hlt]

/-- Witness for C2: on an empty store the first call consumes the code and
an immediate replay is rejected. -/
theorem C2_mark_code_used_witness :
    (TokenService.markAuthorizationCodeAsUsed ([] : Kvs String String) 0 "c").1 = true
      ∧ (TokenService.markAuthorizationCodeAsUsed
          (TokenService.markAuthorizationCodeAsUsed ([] : Kvs String String) 0 "c").2
          10 "c").1 = false :=
  ⟨(C2_mark_code_used [] 0 "c").1.mpr rfl,
    (C2_mark_code_used [] 0 "c").2.2.2 rfl 10 (by decide)⟩

/-- Helper: the boolean returned by the rate limiter is exactly "no live
record existed at the key". -/
theorem checkRateLimit_fst (kvs : Kvs String String) (now : Nat)
    (key : String) (ttl : Nat) :
    (RateLimitService.checkRateLimit kvs now key ttl).1 =
      (kvs.getLive now key).isNone := by
  unfold RateLimitService.checkRateLimit Kvs.setNxEx
  cases h : kvs.getLive now key <;> simp [h]

/-- Helper: the store returned by the rate limiter. -/
theorem checkRateLimit_snd (kvs : Kvs String String) (now : Nat)
    (key : String) (ttl : Nat) :
    (RateLimitService.checkRateLimit kvs now key ttl).2 =
      match kvs.getLive now key with
      | some _ => kvs
      | none => (key, ⟨key, now + ttl⟩) :: kvs := by
  unfold RateLimitService.checkRateLimit Kvs.setNxEx
  cases h : kvs.getLive now key <;> simp [h]

/-- C8: `check_rate_limit` atomically creates a record at the key with
TTL = window and returns `true` on the first call (no record existed);
after a successful first call, a repeat call for the same key returns
`false` strictly before the window elapses and `true` again once it has. -/
theorem C8_check_rate_limit (kvs : Kvs String String) (now : Nat)
    (key : String) (ttl : Nat) :
    ((RateLimitService.checkRateLimit kvs now key ttl).1 = true ↔
        kvs.getLive now key = none)
      ∧ (kvs.getLive now key = none →
          (RateLimitService.checkRateLimit kvs now key ttl).2 =
            (key, ⟨key, now + ttl⟩) :: kvs)
      ∧ (kvs.getLive now key = none → ∀ now',
          ((RateLimitService.checkRateLimit
              (RateLimitService.checkRateLimit kvs now key ttl).2
              now' key ttl).1 = true ↔ now + ttl ≤ now')) := by
  refine ⟨?_, ?_, ?_⟩
  · rw [checkRateLimit_fst]
    cases h : kvs.getLive now key <;> simp [h]
  · intro h
    rw [checkRateLimit_snd, h]
  · intro h now'
    rw [checkRateLimit_fst, checkRateLimit_snd, h, getLive_cons_self]
    by_cases hlt : now' < now + ttl
    · simp [hlt, Nat.not_le.mpr hlt]
    · simp [hlt, Nat.le_of_not_lt hlt]

/-- Witness for C8: first call allowed, immediate repeat denied, repeat
after the window allowed again, on a concrete store. -/
theorem C8_check_rate_limit_witness :
    (RateLimitService.checkRateLimit ([] : Kvs String String) 0 "k" 60).1 = true
      ∧ (RateLimitService.checkRateLimit
          (RateLimitService.checkRateLimit ([] : Kvs String String) 0 "k" 60).2
          59 "k" 60).1 = false
      ∧ (RateLimitService.checkRateLimit
          (RateLimitService.checkRateLimit ([] : Kvs String String) 0 "k" 60).2
          60 "k" 60).1 = true :=
  ⟨(C8_check_rate_limit [] 0 "k" 60).1.mpr rfl,
    by
      have h := ((C8_check_rate_limit [] 0 "k" 60).2.2 rfl 59)
      cases hb : (RateLimitService.checkRateLimit
          (RateLimitService.checkRateLimit ([] : Kvs String String) 0 "k" 60).2
          59 "k" 60).1
      · rfl
      · exact absurd (h.mp hb) (by decide),
    (C8_check_rate_limit [] 0 "k" 60).2.2 rfl 60 |>.mpr (by decide)⟩

/-- Helper: the fixed-prefix marker-key construction is injective. -/
theorem authTokenKey_inj {c1 c2 : String} (h : authTokenKey c1 = authTokenKey c2) :
    c1 = c2 := by
  unfold authTokenKey at h
  have hd := congrArg String.data h
  simp [String.data_append] at hd
  cases c1
  cases c2
  exact congrArg String.mk hd

/-- C10: distinct authorization codes are independent — consuming `c1`
writes only the key `"authorization_token:" + c1` (every other key reads
the same before and after), so for `c1 ≠ c2` it does not change the result
of a later consumption of `c2`; the fixed-prefix key construction is
injective. -/
theorem C10_codes_independent (kvs : Kvs String String) (now now' : Nat)
    (c1 c2 : String) (hne : c1 ≠ c2) :
    (∀ k, k ≠ authTokenKey c1 →
        (TokenService.markAuthorizationCodeAsUsed kvs now c1).2.getLive now' k =
          kvs.getLive now' k)
      ∧ ((TokenService.markAuthorizationCodeAsUsed
            (TokenService.markAuthorizationCodeAsUsed kvs now c1).2 now' c2).1 =
          (TokenService.markAuthorizationCodeAsUsed kvs now' c2).1)
      ∧ (∀ a b : String, authTokenKey a = authTokenKey b → a = b) := by
  have frame : ∀ k, k ≠ authTokenKey c1 →
      (TokenService.markAuthorizationCodeAsUsed kvs now c1).2.getLive now' k =
        kvs.getLive now' k := by
    intro k hk
    rw [markUsed_snd]
    cases h : kvs.getLive now (authTokenKey c1)
    · exact getLive_cons_ne kvs now' _ (fun he => hk he.symm)
    · rfl
  refine ⟨frame, ?_, fun a b => authTokenKey_inj⟩
  rw [markUsed_fst, markUsed_fst]
  rw [frame (authTokenKey c2) (fun he => hne (authTokenKey_inj he).symm)]

/-- Witness for C10: consuming one code on an empty store leaves a second,
different code still consumable. -/
theorem C10_codes_independent_witness :
    (TokenService.markAuthorizationCodeAsUsed
        (TokenService.markAuthorizationCodeAsUsed ([] : Kvs String String) 0 "a").2
        1 "b").1 =
      (TokenService.markAuthorizationCodeAsUsed ([] : Kvs String String) 1 "b").1 :=
  (C10_codes_independent [] 0 1 "a" "b" (by decide)).2.1

/-! ## Theorems: the OAuth2 token endpoint (C1, C7) -/

/-- Helper: the source-shaped `access_token` agrees pointwise with the
nine-step procedure written from the spec. -/
theorem accessToken_eq_specSteps (db : ClientDb) (secret : List Nat)
    (kvs : Kvs TokenStr TokenStr) (now : Nat) (p : TokenParams) :
    Oauth2Service.accessToken db secret kvs now p =
      accessTokenSpecSteps db secret kvs now p := by
  unfold Oauth2Service.accessToken accessTokenSpecSteps
    Oauth2Service.authorizationCodeFlow TokenService.createAccessToken
  cases ClientService.getByClientId db p.client_id with
  | none => rfl
  | some client =>
    by_cases hs : client.isSecretMatch p.client_secret
    · cases TokenService.verifyAny secret now p.code with
      | error e => simp [hs]
      | ok claims =>
        by_cases hg : p.grant_type = "authorization_code"
        · by_cases hk : claims.jwt_type = JwtType.authorizationCode
          · by_cases ha : claims.aud = p.client_id
            · by_cases hr : p.redirect_uri = client.redirect_uri
              · cases hm : markUsedT kvs now p.code with
                | mk b kvs' =>
                  cases b <;> simp [hs, hg, hk, ha, hr, hm, JwtSigner.sign]
              · simp [hs, hg, hk, ha, hr]
            · simp [hs, hg, hk, ha]
          · simp [hs, hg, hk]
        · simp [hs, hg]
    · simp [hs]

/-- C1: `access_token` performs its checks in exactly the spec's order,
short-circuiting on the first failure with the named error: (1) client
lookup, (2) secret check, (3) `verify_any` with codec errors propagated
as-is, (4) grant type, (5) token kind, (6) audience, (7) redirect URI, (8)
atomic consumption, (9) minting with audience = client id, subject = the
code's subject and a 60-minute expiry — the source function coincides
pointwise with the nine-step procedure `accessTokenSpecSteps` transcribed
from the spec. -/
theorem C1_access_token_order (db : ClientDb) (secret : List Nat)
    (kvs : Kvs TokenStr TokenStr) (now : Nat) (p : TokenParams) :
    Oauth2Service.accessToken db secret kvs now p =
      accessTokenSpecSteps db secret kvs now p :=
  accessToken_eq_specSteps db secret kvs now p

/-- Helper: a failed set-if-absent leaves the store untouched. -/
theorem markUsedT_false_snd (kvs : Kvs TokenStr TokenStr) (now : Nat)
    (token : TokenStr) (h : (markUsedT kvs now token).1 = false) :
    (markUsedT kvs now token).2 = kvs := by
  unfold markUsedT Kvs.setNxEx at h ⊢
  cases hg : kvs.getLive now token <;> simp [hg] at h ⊢

/-- Helper: the token endpoint either leaves the store unchanged or
succeeds. -/
theorem accessToken_store_unchanged_or_ok (db : ClientDb) (secret : List Nat)
    (kvs : Kvs TokenStr TokenStr) (now : Nat) (p : TokenParams) :
    (Oauth2Service.accessToken db secret kvs now p).2 = kvs
      ∨ ∃ t, (Oauth2Service.accessToken db secret kvs now p).1 = .ok t := by
  rw [accessToken_eq_specSteps]
  unfold accessTokenSpecSteps
  cases ClientService.getByClientId db p.client_id with
  | none => exact Or.inl rfl
  | some client =>
    by_cases hs : client.isSecretMatch p.client_secret
    · cases TokenService.verifyAny secret now p.code with
      | error e' => simp [hs]
      | ok claims =>
        by_cases hg : p.grant_type = "authorization_code"
        · by_cases hk : claims.jwt_type = JwtType.authorizationCode
          · by_cases ha : claims.aud = p.client_id
            · by_cases hr : p.redirect_uri = client.redirect_uri
              · cases hm : markUsedT kvs now p.code with
                | mk b kvs' =>
                  cases b
                  · refine Or.inl ?_
                    have := markUsedT_false_snd kvs now p.code (by rw [hm])
                    rw [hm] at this
                    simp [hs, hg, hk, ha, hr, hm, this]
                  · refine Or.inr
                      ⟨{ access_token :=
                           JwtSigner.sign secret
                             (Claims.new JwtType.accessToken p.client_id claims.sub 3600 now)
                         token_type := "Bearer"
                         expires_in := 3600
                         refresh_token := none
                         scope := none }, ?_⟩
                    simp [hs, hg, hk, ha, hr, hm]
              · simp [hs, hg, hk, ha, hr]
            · simp [hs, hg, hk, ha]
          · simp [hs, hg, hk]
        · simp [hs, hg]
    · simp [hs]

/-- C7: whenever `access_token` fails with any error other than
`AuthorizationCodeUsed` or an internal error, the KV store is left
unchanged — no single-use marker is written. -/
theorem C7_failure_preserves_store (db : ClientDb) (secret : List Nat)
    (kvs : Kvs TokenStr TokenStr) (now : Nat) (p : TokenParams)
    (e : AccessTokenError)
    (herr : (Oauth2Service.accessToken db secret kvs now p).1 = .error e)
    (hused : e ≠ .authorizationCodeUsed)
    (hint : e ≠ .internalError) :
    (Oauth2Service.accessToken db secret kvs now p).2 = kvs := by
  rcases accessToken_store_unchanged_or_ok db secret kvs now p with h | ⟨t, ht⟩
  · exact h
  · rw [herr] at ht
    exact absurd ht (by simp)

/-- Witness for C7: a concrete request failing with `RedirectUriMismatch`
leaves a concrete one-entry store unchanged. -/
theorem C7_failure_preserves_store_witness :
    (Oauth2Service.accessToken
        [("c1", ⟨hashOf "s", "https://app/cb"⟩)] [9]
        ([(TokenStr.malformed "x", ⟨TokenStr.malformed "x", 50⟩)] :
          Kvs TokenStr TokenStr)
        0
        { grant_type := "authorization_code"
          code := JwtSigner.sign [9] ⟨.authorizationCode, "c1", 100, 0, issuerConst, 7⟩
          redirect_uri := "https://evil/cb"
          client_id := "c1"
          client_secret := "s" }).2 =
      [(TokenStr.malformed "x", ⟨TokenStr.malformed "x", 50⟩)] :=
  C7_failure_preserves_store _ _ _ _ _ AccessTokenError.redirectUriMismatch
    rfl (by decide) (by decide)

/-! ## Theorems: the expiry invariant (C9) -/

/-- The claims carried by a well-formed serialized token. -/
def TokenStr.claimsOf : TokenStr → Option Claims
  | .signed c _ => some c
  | .malformed _ => none

/-- C9: every Claims value the program constructs — in each of the three
issuance paths (authorization codes with their 5-minute expiry, access
tokens with their 60-minute expiry, activation codes with their 15-minute
expiry), and in general for every positive expiry duration — satisfies
`expires_at > issued_at`. -/
theorem C9_expires_after_issued (secret : List Nat) (cid : String)
    (uid : Nat) (now : Nat) :
    (∀ c ∈ (Oauth2Service.createAuthorizationCode secret cid uid now).claimsOf,
        c.iat < c.exp)
      ∧ (∀ c ∈ (TokenService.createAccessToken secret cid uid 3600 now).claimsOf,
          c.iat < c.exp)
      ∧ (∀ c ∈ (TokenService.createActivationCode secret uid now).claimsOf,
          c.iat < c.exp)
      ∧ (∀ (t : JwtType) (aud : String) (sub : Nat) (d : Int),
          0 < usizeOfInt d → (Claims.new t aud sub d now).iat < (Claims.new t aud sub d now).exp) := by
  refine ⟨?_, ?_, ?_, ?_⟩
  · intro c hc
    simp [Oauth2Service.createAuthorizationCode, TokenService.createAuthorizationCode,
      JwtSigner.sign, TokenStr.claimsOf, Claims.new] at hc
    subst hc
    have : (0 : Nat) < usizeOfInt 300 := by decide
    simp [Claims.new]
    omega
  · intro c hc
    simp [TokenService.createAccessToken, JwtSigner.sign, TokenStr.claimsOf] at hc
    subst hc
    have : (0 : Nat) < usizeOfInt 3600 := by decide
    simp [Claims.new]
    omega
  · intro c hc
    simp [TokenService.createActivationCode, JwtSigner.sign, TokenStr.claimsOf] at hc
    subst hc
    have : (0 : Nat) < usizeOfInt 900 := by decide
    simp [Claims.new]
    omega
  · intro t aud sub d hd
    simp [Claims.new]
    omega

/-- Witness for C9: the invariant at a concrete issued authorization code. -/
theorem C9_expires_after_issued_witness :
    ∀ c ∈ (Oauth2Service.createAuthorizationCode [1] "c1" 7 1000).claimsOf,
      c.iat < c.exp :=
  (C9_expires_after_issued [1] "c1" 7 1000).1

end SSO
